import Mathlib

/-!
Shallow embedding of `lib/forecast.py` (WeatherFlow_PiConsole forecast module).

The module downloads a weather forecast from one of three providers
(UK MetOffice, DarkSky, OpenWeather), normalises it into display fields of a
mutable `metData` dictionary, and schedules 600-second retries on failure.

Modelling conventions:
* Python dict `metData` becomes the record `ForecastState`; the presence of the
  `Dict` key is an `Option`.
* Python exceptions become `Except PyErr`; the `try/except KeyError` block of
  each extractor is modelled by `metOfficeTry` / `darkSkyTry` / `openWeatherTry`
  returning `Option` (`none` = some key on the accessed chain is missing), while
  uncaught `IndexError` / `ValueError` surface as `Except.error`.
* Python floats become `ℚ` (the claims use tolerances far above float error).
* External collaborators that are not part of this repository snapshot
  (`observation.Units`, `derive.CardinalWindDirection`, timezone formatting,
  the HTTP layer, the wall clock) are abstract parameters in `Env`.
* `Clock.schedule_once(.., 600)` calls are recorded as a list of scheduled
  retry delays; HTTP requests issued are recorded as a list of providers.
-/

namespace Forecast

attribute [local semireducible] Rat.mul Rat.inv Rat.add Rat.sub

/-- Decidable equality for `Except`, used to evaluate concrete runs. -/
instance {ε α : Type} [DecidableEq ε] [DecidableEq α] : DecidableEq (Except ε α) :=
  fun a b =>
    match a, b with
    | .ok x, .ok y =>
      if h : x = y then .isTrue (by rw [h]) else .isFalse (fun hh => h (Except.ok.inj hh))
    | .error x, .error y =>
      if h : x = y then .isTrue (by rw [h]) else .isFalse (fun hh => h (Except.error.inj hh))
    | .ok _, .error _ => .isFalse (fun hh => Except.noConfusion hh)
    | .error _, .ok _ => .isFalse (fun hh => Except.noConfusion hh)

/-- Python exceptions that the module can raise or catch. -/
inductive PyErr
  | keyError
  | indexError
  | valueError
deriving DecidableEq, Repr

/-- Python list indexing `l[i]`: one negative wrap-around, `IndexError` when
out of range. -/
def pyGet {α : Type} (l : List α) (i : ℤ) : Except PyErr α :=
  let j := if i < 0 then i + l.length else i
  if h : 0 ≤ j ∧ j < (l.length : ℤ) then
    .ok (l.get ⟨j.toNat, by omega⟩)
  else
    .error .indexError

/-- Python `list.index(x)`: position of the first occurrence, `ValueError`
when absent. -/
def pyListIndex (l : List String) (x : String) : Except PyErr Nat :=
  match l.findIdx? (fun y => y == x) with
  | some k => .ok k
  | none => .error .valueError

/-- Loop body of Python `bisect.bisect` (= `bisect_right`), with explicit fuel
so that the definition is structural and evaluates by `decide` or `rfl`.
`fuel ≥ hi - lo` guarantees the loop runs to completion. -/
def bisectGo (a : List ℤ) (x : ℤ) : Nat → Nat → Nat → Nat
  | 0, lo, _hi => lo
  | fuel + 1, lo, hi =>
    if lo < hi then
      let mid := (lo + hi) / 2
      if x < a.getD mid 0 then bisectGo a x fuel lo mid
      else bisectGo a x fuel (mid + 1) hi
    else lo

/-- Python `bisect.bisect(a, x)`: rightmost insertion point for `x` in `a`. -/
def bisect (a : List ℤ) (x : ℤ) : Nat :=
  bisectGo a x a.length 0 a.length

/-- Floor of a rational, written via `Int.fdiv` so it evaluates by `decide`. -/
def ratFloor (q : ℚ) : ℤ := Int.fdiv q.num q.den

/-- Python rounding (round-half-to-even), used by `"\x7b:.0f\x7d".format`
and `"\x7b:.1f\x7d".format`. -/
def pyRoundHalfEven (q : ℚ) : ℤ :=
  let f := ratFloor q
  let frac := q - (f : ℚ)
  if frac < 1/2 then f
  else if 1/2 < frac then f + 1
  else if f % 2 = 0 then f else f + 1

/-- Python format with zero decimals. -/
def fmt0 (q : ℚ) : String := toString (pyRoundHalfEven q)

/-- Python format with one decimal (negative zero is not modelled; no claim
depends on it). -/
def fmt1 (q : ℚ) : String :=
  let n := pyRoundHalfEven (10 * q)
  let sign := if n < 0 then "-" else ""
  sign ++ toString (n.natAbs / 10) ++ "." ++ toString (n.natAbs % 10)

/-- Python format `"\x7b:02.0f\x7d"` applied to an hour value. -/
def pad2 (v : ℤ) : String :=
  if 0 ≤ v ∧ v < 10 then "0" ++ toString v else toString v

/-- Python string slice `s[11:-4]` used on the MetOffice `dataDate`. -/
def slice11m4 (s : String) : String :=
  (((s.toList).drop 11).take (s.toList.length - 4 - 11)).asString

/-- MetOffice 3-hourly forecast entry (`Rep` item). `dollar` is the key
`"$"` (minutes after midnight) already parsed by `int(...)`. -/
structure MetOfficeRep where
  dollar : ℤ
  T : ℚ
  S : ℚ
  D : String
  Pp : String
  W : String
deriving DecidableEq, Repr

/-- MetOffice daily period: a date string (`value`) plus its `Rep` list. -/
structure MetOfficePeriod where
  value : String
  Rep : List MetOfficeRep
deriving DecidableEq, Repr

/-- MetOffice `SiteRep.DV` object. -/
structure MetOfficeDV where
  dataDate : String
  Period : List MetOfficePeriod
deriving DecidableEq, Repr

/-- MetOffice payload; `none` at `SiteRep` models any missing key on the chain
`SiteRep → DV → dataDate / Location → Period`. -/
structure MetOfficePayload where
  SiteRep : Option MetOfficeDV
deriving DecidableEq, Repr

/-- DarkSky hourly entry. -/
structure DarkSkyEntry where
  time : ℤ
  temperature : ℚ
  windSpeed : ℚ
  windBearing : ℚ
  precipProbability : ℚ
  icon : String
deriving DecidableEq, Repr

/-- DarkSky payload; `none` models a missing key on `hourly → data`. -/
structure DarkSkyPayload where
  hourly : Option (List DarkSkyEntry)
deriving DecidableEq, Repr

/-- OpenWeather `weather` array item. -/
structure OWWeatherItem where
  icon : String
deriving DecidableEq, Repr

/-- OpenWeather hourly entry. -/
structure OpenWeatherEntry where
  dt : ℤ
  temp : ℚ
  wind_speed : ℚ
  wind_deg : ℚ
  weather : List OWWeatherItem
deriving DecidableEq, Repr

/-- OpenWeather payload; `none` models a missing `hourly` key. -/
structure OpenWeatherPayload where
  hourly : Option (List OpenWeatherEntry)
deriving DecidableEq, Repr

/-- The raw provider response cached in `metData["Dict"]`; `empty` is the
Python `\x7b\x7d` written when a failed fetch finds no cached data. -/
inductive RawDict
  | empty
  | metOffice (p : MetOfficePayload)
  | darkSky (p : DarkSkyPayload)
  | openWeather (p : OpenWeatherPayload)
deriving DecidableEq, Repr

/-- A value stored in one of the display fields of `metData`: a plain string,
a `[formatted value, unit]` pair, or a datetime object (`Time`). -/
inductive Value
  | str (s : String)
  | pair (v : String) (u : String)
  | time (t : ℤ)
deriving DecidableEq, Repr

/-- The `metData` dictionary. `Dict = none` models the `Dict` key being
absent; the display fields always carry their current (possibly stale)
values. -/
structure ForecastState where
  Dict : Option RawDict
  Time : Value
  Issued : Value
  Valid : Value
  Temp : Value
  WindDir : Value
  WindSpd : Value
  Weather : Value
  Precip : Value
  Source : Value
deriving DecidableEq, Repr

/-- Station configuration slice consumed by the module: country code,
truthiness of the two commercial API keys, display units. -/
structure Config where
  country : String
  darkSkyKey : Bool
  openWeatherKey : Bool
  tempUnit : String
  windUnit : String

/-- Environment: clock, timezone formatting, external helpers, and the
outcome of each provider HTTP request (`none` = `verifyResponse` failed,
`some p` = verified payload `Data.json()`). -/
structure Env where
  now : ℤ
  nowDate : String
  nowHour : ℤ
  nowEpoch : ℤ
  fmtHM : ℤ → String
  units : ℚ × String → String → ℚ × String
  cardinal : ℚ → String
  fetchMetOffice : Option MetOfficePayload
  fetchDarkSky : Option DarkSkyPayload
  fetchOpenWeather : Option OpenWeatherPayload

/-- The providers a fetch cycle can issue an HTTP request to. -/
inductive Provider
  | metOffice
  | darkSky
  | openWeather
deriving DecidableEq, Repr

/-- The `try:` block of `ExtractMetOffice` (lines 112-114): returns the
`(dataDate, Period)` pair, or `none` on any `KeyError`. -/
def metOfficeTry : Option RawDict → Option (String × List MetOfficePeriod)
  | some (.metOffice p) => p.SiteRep.map (fun dv => (dv.dataDate, dv.Period))
  | _ => none

/-- The `try:` block of `ExtractDarkSky` (lines 189-190). -/
def darkSkyTry : Option RawDict → Option (List DarkSkyEntry)
  | some (.darkSky p) => p.hourly
  | _ => none

/-- The `try:` block of `ExtractOpenWeather` (lines 284-285). -/
def openWeatherTry : Option RawDict → Option (List OpenWeatherEntry)
  | some (.openWeather p) => p.hourly
  | _ => none

/-- Line 146 / line 218: wind speed divided by 2.2369362920544 (mph → m/s). -/
def mphDivisor : ℚ := 22369362920544 / 10 ^ 13

/-- The MetOffice wind-speed conversion `float(metDict["S"])/2.2369362920544`. -/
def metOfficeWindMps (s : ℚ) : ℚ := s / mphDivisor

/-- The DarkSky wind-speed conversion `metDict["windSpeed"]/2.2369362920544`. -/
def darkSkyWindMps (w : ℚ) : ℚ := w / mphDivisor

/-- The OpenWeather wind-speed conversion `metDict["wind_speed"] * 0.2778`
(line 313). -/
def openWeatherWindMps (w : ℚ) : ℚ := w * (2778 / 10 ^ 4)

/-- The DarkSky icon if-chain (lines 238-259). -/
def darkSkyIcon (w : String) : String :=
  if w == "clear-day" then "1"
  else if w == "clear-night" then "0"
  else if w == "rain" then "12"
  else if w == "snow" then "27"
  else if w == "sleet" then "18"
  else if w == "wind" then "wind"
  else if w == "fog" then "6"
  else if w == "cloudy" then "7"
  else if w == "partly-cloudy-day" then "3"
  else if w == "partly-cloudy-night" then "2"
  else "ForecastUnavailable"

/-- The OpenWeather `ICONMAP` table (lines 333-352). -/
def ICONMAP : List (String × String) :=
  [("01n", "0"), ("01d", "1"), ("02n", "2"), ("02d", "3"),
   ("50d", "6"), ("50n", "6"), ("03d", "7"), ("03n", "7"),
   ("04d", "8"), ("04n", "8"), ("09n", "9"), ("09d", "10"),
   ("10n", "13"), ("10d", "14"), ("13n", "22"), ("13d", "23"),
   ("11n", "28"), ("11d", "29")]

/-- `ICONMAP.get(Weather, "ForecastUnavailable")` (line 354). -/
def openWeatherIcon (w : String) : String :=
  (ICONMAP.lookup w).getD "ForecastUnavailable"

/-- `ExtractMetOffice` (lines 93-167). Returns the mutated state plus the
retry delays it scheduled, or an uncaught Python exception. -/
def ExtractMetOffice (env : Env) (cfg : Config) (metData : ForecastState) :
    Except PyErr (ForecastState × List Nat) :=
  match metOfficeTry metData.Dict with
  | none =>
    .ok ({ metData with
            Time := .time env.now
            Temp := .str "--"
            WindDir := .str "--"
            WindSpd := .str "--"
            Weather := .str "ForecastUnavailable"
            Precip := .str "--"
            Valid := .str "--" }, [600])
  | some (dataDate, periods) => do
    let Issued := slice11m4 dataDate
    let Dates := periods.map (fun item => item.value)
    let k ← pyListIndex Dates env.nowDate
    let period ← pyGet periods (k : ℤ)
    let Times := period.Rep.map (fun item => item.dollar / 60)
    let rep ← pyGet period.Rep ((bisect Times env.nowHour : ℤ) - 1)
    let v ← pyGet Times ((bisect Times env.nowHour : ℤ) - 1)
    let Valid : ℤ := if v + 3 = 24 then 0 else v + 3
    let Temp := env.units (rep.T, "c") cfg.tempUnit
    let WindSpd := env.units (metOfficeWindMps rep.S, "mps") cfg.windUnit
    .ok ({ metData with
            Time := .time env.now
            Issued := .str Issued
            Valid := .str (pad2 Valid ++ ":00")
            Temp := .pair (fmt1 Temp.1) Temp.2
            WindDir := .str rep.D
            WindSpd := .pair (fmt0 WindSpd.1) WindSpd.2
            Weather := .str rep.W
            Precip := .str rep.Pp
            Source := .str "MetOffice" }, [])

/-- `ExtractDarkSky` (lines 169-262). -/
def ExtractDarkSky (env : Env) (cfg : Config) (metData : ForecastState) :
    Except PyErr (ForecastState × List Nat) :=
  match darkSkyTry metData.Dict with
  | none =>
    .ok ({ metData with
            Time := .time env.now
            Temp := .str "--"
            WindDir := .str "--"
            WindSpd := .str "--"
            Weather := .str "ForecastUnavailable"
            Precip := .str "--"
            Valid := .str "--" }, [600])
  | some data => do
    let Times := data.map (fun item => item.time)
    let entry ← pyGet data ((bisect Times env.nowEpoch : ℤ) - 1)
    let IssuedTs ← pyGet Times (0 : ℤ)
    let ValidTs ← pyGet Times (bisect Times env.nowEpoch : ℤ)
    let Temp := env.units (entry.temperature, "c") cfg.tempUnit
    let WindSpd := env.units (darkSkyWindMps entry.windSpeed, "mps") cfg.windUnit
    .ok ({ metData with
            Time := .time env.now
            Issued := .str (env.fmtHM IssuedTs)
            Valid := .str (env.fmtHM ValidTs)
            Temp := .pair (fmt1 Temp.1) Temp.2
            WindDir := .str (env.cardinal entry.windBearing)
            WindSpd := .pair (fmt0 WindSpd.1) WindSpd.2
            Precip := .str (fmt0 (entry.precipProbability * 100))
            Source := .str "DarkSky"
            Weather := .str (darkSkyIcon entry.icon) }, [])

/-- `ExtractOpenWeather` (lines 264-357). `Precip` is the constant `"--"`
(the extraction of a probability is commented out in the source). -/
def ExtractOpenWeather (env : Env) (cfg : Config) (metData : ForecastState) :
    Except PyErr (ForecastState × List Nat) :=
  match openWeatherTry metData.Dict with
  | none =>
    .ok ({ metData with
            Time := .time env.now
            Temp := .str "--"
            WindDir := .str "--"
            WindSpd := .str "--"
            Weather := .str "ForecastUnavailable"
            Precip := .str "--"
            Valid := .str "--" }, [600])
  | some data => do
    let Times := data.map (fun item => item.dt)
    let entry ← pyGet data ((bisect Times env.nowEpoch : ℤ) - 1)
    let IssuedTs ← pyGet Times (0 : ℤ)
    let ValidTs ← pyGet Times (bisect Times env.nowEpoch : ℤ)
    let w ← pyGet entry.weather (0 : ℤ)
    let Temp := env.units (entry.temp, "c") cfg.tempUnit
    let WindSpd := env.units (openWeatherWindMps entry.wind_speed, "mps") cfg.windUnit
    .ok ({ metData with
            Time := .time env.now
            Issued := .str (env.fmtHM IssuedTs)
            Valid := .str (env.fmtHM ValidTs)
            Temp := .pair (fmt1 Temp.1) Temp.2
            WindDir := .str (env.cardinal entry.wind_deg)
            WindSpd := .pair (fmt0 WindSpd.1) WindSpd.2
            Precip := .str "--"
            Source := .str "OpenWeather"
            Weather := .str (openWeatherIcon w.icon) }, [])

/-- Result of one `Download` call: the returned (or exception-interrupted)
state, the scheduled retry delays in order, and the HTTP requests issued. -/
structure DownloadResult where
  result : Except PyErr ForecastState
  retries : List Nat
  requests : List Provider
deriving Repr

/-- `Download` (lines 30-91): provider selection, shape check, caching, and the
call into the provider-specific extraction. -/
def Download (env : Env) (cfg : Config) (metData : ForecastState) :
    DownloadResult :=
  if cfg.country == "GB" then
    let fetched := env.fetchMetOffice
    let step : Option RawDict × List Nat :=
      match fetched with
      | some d => (some (RawDict.metOffice d), [])
      | none => ((if metData.Dict.isSome then metData.Dict else some .empty), [600])
    let st := { metData with Dict := step.1 }
    match ExtractMetOffice env cfg st with
    | .ok (t, r2) => ⟨.ok t, step.2 ++ r2, [.metOffice]⟩
    | .error e => ⟨.error e, step.2, [.metOffice]⟩
  else if cfg.darkSkyKey then
    let fetched := env.fetchDarkSky
    let step : Option RawDict × List Nat :=
      match fetched with
      | some d => (some (RawDict.darkSky d), [])
      | none => ((if metData.Dict.isSome then metData.Dict else some .empty), [600])
    let st := { metData with Dict := step.1 }
    match ExtractDarkSky env cfg st with
    | .ok (t, r2) => ⟨.ok t, step.2 ++ r2, [.darkSky]⟩
    | .error e => ⟨.error e, step.2, [.darkSky]⟩
  else if cfg.openWeatherKey then
    let fetched := env.fetchOpenWeather
    let step : Option RawDict × List Nat :=
      match fetched with
      | some d => (some (RawDict.openWeather d), [])
      | none => ((if metData.Dict.isSome then metData.Dict else some .empty), [600])
    let st := { metData with Dict := step.1 }
    match ExtractOpenWeather env cfg st with
    | .ok (t, r2) => ⟨.ok t, step.2 ++ r2, [.openWeather]⟩
    | .error e => ⟨.error e, step.2, [.openWeather]⟩
  else
    ⟨.ok metData, [], []⟩

/-! ### Helper lemmas -/

theorem sorted_getD_mono (a : List ℤ) (hs : a.Pairwise (· ≤ ·)) {i j : Nat}
    (hij : i ≤ j) (hj : j < a.length) : a.getD i 0 ≤ a.getD j 0 := by
  rcases Nat.eq_or_lt_of_le hij with rfl | hlt
  · exact le_refl _
  · rw [List.getD_eq_getElem a 0 (lt_trans hlt hj), List.getD_eq_getElem a 0 hj]
    exact List.pairwise_iff_getElem.mp hs i j (lt_trans hlt hj) hj hlt

theorem bisectGo_spec (a : List ℤ) (x : ℤ) (hs : a.Pairwise (· ≤ ·)) :
    ∀ (fuel lo hi : Nat), hi ≤ a.length → lo ≤ hi → hi - lo ≤ fuel →
    (∀ i, i < lo → a.getD i 0 ≤ x) →
    (∀ i, hi ≤ i → i < a.length → x < a.getD i 0) →
    lo ≤ bisectGo a x fuel lo hi ∧ bisectGo a x fuel lo hi ≤ hi ∧
    (∀ i, i < bisectGo a x fuel lo hi → a.getD i 0 ≤ x) ∧
    (∀ i, bisectGo a x fuel lo hi ≤ i → i < a.length → x < a.getD i 0) := by
  intro fuel
  induction fuel with
  | zero =>
    intro lo hi hhi hlh hfuel hlo hhiI
    have hEq : hi = lo := by omega
    subst hEq
    simp only [bisectGo]
    exact ⟨le_refl _, le_refl _, hlo, fun i h1 h2 => hhiI i h1 h2⟩
  | succ fuel ih =>
    intro lo hi hhi hlh hfuel hlo hhiI
    simp only [bisectGo]
    by_cases hlt : lo < hi
    · rw [if_pos hlt]
      have hmidlt : (lo + hi) / 2 < hi := by omega
      have hmidge : lo ≤ (lo + hi) / 2 := by omega
      by_cases hx : x < a.getD ((lo + hi) / 2) 0
      · rw [if_pos hx]
        have h2 : ∀ i, (lo + hi) / 2 ≤ i → i < a.length → x < a.getD i 0 := by
          intro i hi1 hi2
          exact lt_of_lt_of_le hx (sorted_getD_mono a hs hi1 hi2)
        have := ih lo ((lo + hi) / 2) (by omega) hmidge (by omega) hlo h2
        exact ⟨this.1, le_trans this.2.1 (le_of_lt hmidlt), this.2.2⟩
      · rw [if_neg hx]
        push_neg at hx
        have h1 : ∀ i, i < (lo + hi) / 2 + 1 → a.getD i 0 ≤ x := by
          intro i hi1
          exact le_trans (sorted_getD_mono a hs (by omega)
            (by omega : (lo + hi) / 2 < a.length)) hx
        have := ih ((lo + hi) / 2 + 1) hi hhi (by omega) (by omega) h1 hhiI
        exact ⟨le_trans (by omega) this.1, this.2.1, this.2.2⟩
    · rw [if_neg hlt]
      have hEq : hi = lo := by omega
      subst hEq
      exact ⟨le_refl _, le_refl _, hlo, fun i h1 h2 => hhiI i h1 h2⟩

theorem bisect_spec (a : List ℤ) (x : ℤ) (hs : a.Pairwise (· ≤ ·)) :
    bisect a x ≤ a.length ∧
    (∀ i, i < bisect a x → a.getD i 0 ≤ x) ∧
    (∀ i, bisect a x ≤ i → i < a.length → x < a.getD i 0) := by
  have := bisectGo_spec a x hs a.length 0 a.length (le_refl _) (Nat.zero_le _)
    (by omega) (fun i h => absurd h (Nat.not_lt_zero i)) (fun i h1 h2 => absurd h2 (by omega))
  exact ⟨this.2.1, this.2.2⟩

theorem bisect_pos (a : List ℤ) (x : ℤ) (hs : a.Pairwise (· ≤ ·))
    (hne : a ≠ []) (hfirst : a.getD 0 0 ≤ x) : 1 ≤ bisect a x := by
  by_contra h
  have hb : bisect a x = 0 := by omega
  have hlen : 0 < a.length := List.length_pos.mpr hne
  have := (bisect_spec a x hs).2.2 0 (by omega) hlen
  exact absurd hfirst (not_le.mpr this)

/-- The selected index `bisect a x - 1` is the largest index whose element
is at most `x`, provided the list is sorted, nonempty and starts at or
below `x`. -/
theorem bisect_sel (a : List ℤ) (x : ℤ) (hs : a.Pairwise (· ≤ ·))
    (hne : a ≠ []) (hfirst : a.getD 0 0 ≤ x) :
    bisect a x - 1 < a.length ∧ a.getD (bisect a x - 1) 0 ≤ x ∧
    ∀ j, j < a.length → a.getD j 0 ≤ x → j ≤ bisect a x - 1 := by
  have h1 := bisect_pos a x hs hne hfirst
  have h2 := bisect_spec a x hs
  have hlen : 0 < a.length := List.length_pos.mpr hne
  refine ⟨by omega, h2.2.1 _ (by omega), ?_⟩
  intro j hj hjx
  by_contra hcon
  have : bisect a x ≤ j := by omega
  exact absurd hjx (not_le.mpr (h2.2.2 j this hj))

theorem pyGet_natCast {α : Type} (l : List α) (k : Nat) (hk : k < l.length) :
    pyGet l (k : ℤ) = .ok (l.get ⟨k, hk⟩) := by
  have h0 : ¬((k : ℤ) < 0) := by omega
  have h1 : (0 : ℤ) ≤ (k : ℤ) ∧ (k : ℤ) < (l.length : ℤ) := by omega
  simp [pyGet, h0, h1]

theorem pyListIndex_ok_lt {l : List String} {x : String} {k : Nat}
    (h : pyListIndex l x = .ok k) : k < l.length := by
  unfold pyListIndex at h
  cases hf : l.findIdx? (fun y => y == x) with
  | none => rw [hf] at h; simp at h
  | some k' =>
    rw [hf] at h
    have hk : k' = k := by simpa using h
    subst hk
    exact (List.findIdx?_eq_some_iff_findIdx_eq.mp hf).1

/-- The list `Times` of line 136 for a chosen period. -/
def metOfficeTimes (period : MetOfficePeriod) : List ℤ :=
  period.Rep.map (fun item => item.dollar / 60)

/-- The selected index `bisect(Times, Now.hour) - 1` of lines 137-140. -/
def metOfficeIdx (period : MetOfficePeriod) (hour : ℤ) : Nat :=
  bisect (metOfficeTimes period) hour - 1

/-- The wrapped `Valid` hour of lines 140-142. -/
def metOfficeValidHour (period : MetOfficePeriod) (hour : ℤ) : ℤ :=
  let v := (metOfficeTimes period).getD (metOfficeIdx period hour) 0
  if v + 3 = 24 then 0 else v + 3

theorem extractMetOffice_ok (env : Env) (cfg : Config) (s : ForecastState)
    (dd : String) (periods : List MetOfficePeriod) (k : Nat) (period : MetOfficePeriod)
    (hT : metOfficeTry s.Dict = some (dd, periods))
    (hk : pyListIndex (periods.map (fun item => item.value)) env.nowDate = .ok k)
    (hkl : k < periods.length)
    (hperiod : periods.get ⟨k, hkl⟩ = period)
    (hsorted : (metOfficeTimes period).Pairwise (· ≤ ·))
    (hne : period.Rep ≠ [])
    (hfirst : (metOfficeTimes period).getD 0 0 ≤ env.nowHour) :
    ∃ (hi : metOfficeIdx period env.nowHour < period.Rep.length),
      ExtractMetOffice env cfg s = .ok ({ s with
        Time := .time env.now
        Issued := .str (slice11m4 dd)
        Valid := .str (pad2 (metOfficeValidHour period env.nowHour) ++ ":00")
        Temp := .pair
          (fmt1 (env.units ((period.Rep.get ⟨metOfficeIdx period env.nowHour, hi⟩).T, "c") cfg.tempUnit).1)
          (env.units ((period.Rep.get ⟨metOfficeIdx period env.nowHour, hi⟩).T, "c") cfg.tempUnit).2
        WindDir := .str (period.Rep.get ⟨metOfficeIdx period env.nowHour, hi⟩).D
        WindSpd := .pair
          (fmt0 (env.units (metOfficeWindMps (period.Rep.get ⟨metOfficeIdx period env.nowHour, hi⟩).S, "mps") cfg.windUnit).1)
          (env.units (metOfficeWindMps (period.Rep.get ⟨metOfficeIdx period env.nowHour, hi⟩).S, "mps") cfg.windUnit).2
        Weather := .str (period.Rep.get ⟨metOfficeIdx period env.nowHour, hi⟩).W
        Precip := .str (period.Rep.get ⟨metOfficeIdx period env.nowHour, hi⟩).Pp
        Source := .str "MetOffice" }, []) ∧
      (metOfficeTimes period).getD (metOfficeIdx period env.nowHour) 0 ≤ env.nowHour ∧
      (∀ j, j < (metOfficeTimes period).length →
        (metOfficeTimes period).getD j 0 ≤ env.nowHour → j ≤ metOfficeIdx period env.nowHour) := by
  have hTimesNe : metOfficeTimes period ≠ [] :=
    fun h => hne (List.map_eq_nil_iff.mp h)
  obtain ⟨hlt, hle, hmax⟩ :=
    bisect_sel (metOfficeTimes period) env.nowHour hsorted hTimesNe hfirst
  have hlenT : (metOfficeTimes period).length = period.Rep.length :=
    List.length_map _ _
  have hb1 : 1 ≤ bisect (metOfficeTimes period) env.nowHour :=
    bisect_pos _ _ hsorted hTimesNe hfirst
  have hi : metOfficeIdx period env.nowHour < period.Rep.length := by
    simpa [metOfficeIdx, hlenT] using hlt
  refine ⟨hi, ?_, by simpa [metOfficeIdx] using hle, by simpa [metOfficeIdx] using hmax⟩
  unfold ExtractMetOffice
  rw [hT]
  simp only [Bind.bind, Except.bind]
  rw [hk]
  simp only [pyGet_natCast periods k hkl, hperiod]
  rw [show List.map (fun item => item.dollar / 60) period.Rep = metOfficeTimes period from rfl]
  have hiT : metOfficeIdx period env.nowHour < (metOfficeTimes period).length := by omega
  have hcast : ((bisect (metOfficeTimes period) env.nowHour : ℤ) - 1) =
      ((metOfficeIdx period env.nowHour : Nat) : ℤ) := by
    simp only [metOfficeIdx]; omega
  rw [hcast]
  simp only [pyGet_natCast period.Rep _ hi, pyGet_natCast (metOfficeTimes period) _ hiT]
  simp only [metOfficeValidHour]
  rw [List.getD_eq_getElem _ 0 hiT]
  simp [List.get_eq_getElem]

/-- The list `Times` of line 207. -/
def darkSkyTimes (data : List DarkSkyEntry) : List ℤ :=
  data.map (fun item => item.time)

/-- The selected index `bisect(Times, int(time.time())) - 1` of line 208. -/
def darkSkyIdx (data : List DarkSkyEntry) (epoch : ℤ) : Nat :=
  bisect (darkSkyTimes data) epoch - 1

theorem extractDarkSky_ok (env : Env) (cfg : Config) (s : ForecastState)
    (data : List DarkSkyEntry)
    (hT : darkSkyTry s.Dict = some data)
    (hsorted : (darkSkyTimes data).Pairwise (· ≤ ·))
    (hne : data ≠ [])
    (hfirst : (darkSkyTimes data).getD 0 0 ≤ env.nowEpoch)
    (hvb : bisect (darkSkyTimes data) env.nowEpoch < (darkSkyTimes data).length) :
    ∃ (hi : darkSkyIdx data env.nowEpoch < data.length),
      ExtractDarkSky env cfg s = .ok ({ s with
        Time := .time env.now
        Issued := .str (env.fmtHM ((darkSkyTimes data).getD 0 0))
        Valid := .str (env.fmtHM ((darkSkyTimes data).getD (bisect (darkSkyTimes data) env.nowEpoch) 0))
        Temp := .pair
          (fmt1 (env.units ((data.get ⟨darkSkyIdx data env.nowEpoch, hi⟩).temperature, "c") cfg.tempUnit).1)
          (env.units ((data.get ⟨darkSkyIdx data env.nowEpoch, hi⟩).temperature, "c") cfg.tempUnit).2
        WindDir := .str (env.cardinal (data.get ⟨darkSkyIdx data env.nowEpoch, hi⟩).windBearing)
        WindSpd := .pair
          (fmt0 (env.units (darkSkyWindMps (data.get ⟨darkSkyIdx data env.nowEpoch, hi⟩).windSpeed, "mps") cfg.windUnit).1)
          (env.units (darkSkyWindMps (data.get ⟨darkSkyIdx data env.nowEpoch, hi⟩).windSpeed, "mps") cfg.windUnit).2
        Precip := .str (fmt0 ((data.get ⟨darkSkyIdx data env.nowEpoch, hi⟩).precipProbability * 100))
        Source := .str "DarkSky"
        Weather := .str (darkSkyIcon (data.get ⟨darkSkyIdx data env.nowEpoch, hi⟩).icon) }, []) ∧
      (darkSkyTimes data).getD (darkSkyIdx data env.nowEpoch) 0 ≤ env.nowEpoch ∧
      (∀ j, j < (darkSkyTimes data).length →
        (darkSkyTimes data).getD j 0 ≤ env.nowEpoch → j ≤ darkSkyIdx data env.nowEpoch) := by
  have hTimesNe : darkSkyTimes data ≠ [] :=
    fun h => hne (List.map_eq_nil_iff.mp h)
  obtain ⟨hlt, hle, hmax⟩ :=
    bisect_sel (darkSkyTimes data) env.nowEpoch hsorted hTimesNe hfirst
  have hlenT : (darkSkyTimes data).length = data.length := List.length_map _ _
  have hb1 : 1 ≤ bisect (darkSkyTimes data) env.nowEpoch :=
    bisect_pos _ _ hsorted hTimesNe hfirst
  have hi : darkSkyIdx data env.nowEpoch < data.length := by
    simpa [darkSkyIdx, hlenT] using hlt
  refine ⟨hi, ?_, by simpa [darkSkyIdx] using hle, by simpa [darkSkyIdx] using hmax⟩
  unfold ExtractDarkSky
  rw [hT]
  simp only [Bind.bind, Except.bind]
  rw [show List.map (fun item => item.time) data = darkSkyTimes data from rfl]
  have hiT : darkSkyIdx data env.nowEpoch < (darkSkyTimes data).length := by omega
  have h0T : 0 < (darkSkyTimes data).length := by
    have := List.length_pos.mpr hTimesNe; omega
  have hcast : ((bisect (darkSkyTimes data) env.nowEpoch : ℤ) - 1) =
      ((darkSkyIdx data env.nowEpoch : Nat) : ℤ) := by
    simp only [darkSkyIdx]; omega
  rw [hcast]
  have h00 : pyGet (darkSkyTimes data) (0 : ℤ) =
      .ok ((darkSkyTimes data).get ⟨0, h0T⟩) := by
    simpa using pyGet_natCast (darkSkyTimes data) 0 h0T
  simp only [pyGet_natCast data _ hi,
    pyGet_natCast (darkSkyTimes data) _ hvb, h00]
  rw [List.getD_eq_getElem _ 0 h0T, List.getD_eq_getElem _ 0 hvb]
  simp [List.get_eq_getElem]

/-- The list `Times` of line 302. -/
def openWeatherTimes (data : List OpenWeatherEntry) : List ℤ :=
  data.map (fun item => item.dt)

/-- The selected index `bisect(Times, int(time.time())) - 1` of line 303. -/
def openWeatherIdx (data : List OpenWeatherEntry) (epoch : ℤ) : Nat :=
  bisect (openWeatherTimes data) epoch - 1

theorem extractOpenWeather_ok (env : Env) (cfg : Config) (s : ForecastState)
    (data : List OpenWeatherEntry)
    (hT : openWeatherTry s.Dict = some data)
    (hsorted : (openWeatherTimes data).Pairwise (· ≤ ·))
    (hne : data ≠ [])
    (hfirst : (openWeatherTimes data).getD 0 0 ≤ env.nowEpoch)
    (hvb : bisect (openWeatherTimes data) env.nowEpoch < (openWeatherTimes data).length)
    (hw : ∀ e ∈ data, e.weather ≠ []) :
    ∃ (hi : openWeatherIdx data env.nowEpoch < data.length)
      (hwi : 0 < (data.get ⟨openWeatherIdx data env.nowEpoch, hi⟩).weather.length),
      ExtractOpenWeather env cfg s = .ok ({ s with
        Time := .time env.now
        Issued := .str (env.fmtHM ((openWeatherTimes data).getD 0 0))
        Valid := .str (env.fmtHM ((openWeatherTimes data).getD (bisect (openWeatherTimes data) env.nowEpoch) 0))
        Temp := .pair
          (fmt1 (env.units ((data.get ⟨openWeatherIdx data env.nowEpoch, hi⟩).temp, "c") cfg.tempUnit).1)
          (env.units ((data.get ⟨openWeatherIdx data env.nowEpoch, hi⟩).temp, "c") cfg.tempUnit).2
        WindDir := .str (env.cardinal (data.get ⟨openWeatherIdx data env.nowEpoch, hi⟩).wind_deg)
        WindSpd := .pair
          (fmt0 (env.units (openWeatherWindMps (data.get ⟨openWeatherIdx data env.nowEpoch, hi⟩).wind_speed, "mps") cfg.windUnit).1)
          (env.units (openWeatherWindMps (data.get ⟨openWeatherIdx data env.nowEpoch, hi⟩).wind_speed, "mps") cfg.windUnit).2
        Precip := .str "--"
        Source := .str "OpenWeather"
        Weather := .str (openWeatherIcon
          ((data.get ⟨openWeatherIdx data env.nowEpoch, hi⟩).weather.get ⟨0, hwi⟩).icon) }, []) := by
  have hTimesNe : openWeatherTimes data ≠ [] :=
    fun h => hne (List.map_eq_nil_iff.mp h)
  obtain ⟨hlt, hle, hmax⟩ :=
    bisect_sel (openWeatherTimes data) env.nowEpoch hsorted hTimesNe hfirst
  have hlenT : (openWeatherTimes data).length = data.length := List.length_map _ _
  have hb1 : 1 ≤ bisect (openWeatherTimes data) env.nowEpoch :=
    bisect_pos _ _ hsorted hTimesNe hfirst
  have hi : openWeatherIdx data env.nowEpoch < data.length := by
    simpa [openWeatherIdx, hlenT] using hlt
  have hwne : (data.get ⟨openWeatherIdx data env.nowEpoch, hi⟩).weather ≠ [] :=
    hw _ (List.get_mem data _ _)
  have hwi : 0 < (data.get ⟨openWeatherIdx data env.nowEpoch, hi⟩).weather.length :=
    List.length_pos.mpr hwne
  refine ⟨hi, hwi, ?_⟩
  unfold ExtractOpenWeather
  rw [hT]
  simp only [Bind.bind, Except.bind]
  rw [show List.map (fun item => item.dt) data = openWeatherTimes data from rfl]
  have h0T : 0 < (openWeatherTimes data).length := by
    have := List.length_pos.mpr hTimesNe; omega
  have hcast : ((bisect (openWeatherTimes data) env.nowEpoch : ℤ) - 1) =
      ((openWeatherIdx data env.nowEpoch : Nat) : ℤ) := by
    simp only [openWeatherIdx]; omega
  rw [hcast]
  have h00 : pyGet (openWeatherTimes data) (0 : ℤ) =
      .ok ((openWeatherTimes data).get ⟨0, h0T⟩) := by
    simpa using pyGet_natCast (openWeatherTimes data) 0 h0T
  have h0w : pyGet (data.get ⟨openWeatherIdx data env.nowEpoch, hi⟩).weather (0 : ℤ) =
      .ok ((data.get ⟨openWeatherIdx data env.nowEpoch, hi⟩).weather.get ⟨0, hwi⟩) := by
    simpa using pyGet_natCast (data.get ⟨openWeatherIdx data env.nowEpoch, hi⟩).weather 0 hwi
  simp only [pyGet_natCast data _ hi,
    pyGet_natCast (openWeatherTimes data) _ hvb, h00, h0w]
  rw [List.getD_eq_getElem _ 0 h0T, List.getD_eq_getElem _ 0 hvb]
  simp [List.get_eq_getElem]

/-- The sentinel update written by every missing-data branch (lines 116-122,
192-198, 287-293): seven fields overwritten, `Issued` and `Source` untouched. -/
def sentinelUpdate (now : ℤ) (s : ForecastState) : ForecastState :=
  { s with
    Time := .time now
    Temp := .str "--"
    WindDir := .str "--"
    WindSpd := .str "--"
    Weather := .str "ForecastUnavailable"
    Precip := .str "--"
    Valid := .str "--" }

theorem extractMetOffice_missing (env : Env) (cfg : Config) (s : ForecastState)
    (h : metOfficeTry s.Dict = none) :
    ExtractMetOffice env cfg s = .ok (sentinelUpdate env.now s, [600]) := by
  unfold ExtractMetOffice
  rw [h]
  rfl

theorem extractDarkSky_missing (env : Env) (cfg : Config) (s : ForecastState)
    (h : darkSkyTry s.Dict = none) :
    ExtractDarkSky env cfg s = .ok (sentinelUpdate env.now s, [600]) := by
  unfold ExtractDarkSky
  rw [h]
  rfl

theorem extractOpenWeather_missing (env : Env) (cfg : Config) (s : ForecastState)
    (h : openWeatherTry s.Dict = none) :
    ExtractOpenWeather env cfg s = .ok (sentinelUpdate env.now s, [600]) := by
  unfold ExtractOpenWeather
  rw [h]
  rfl

theorem extractMetOffice_overwrites (env : Env) (cfg : Config)
    (s₁ s₂ t : ForecastState) (hDict : s₁.Dict = s₂.Dict)
    (h : ExtractMetOffice env cfg s₁ = .ok (t, [])) :
    ExtractMetOffice env cfg s₂ = .ok (t, []) := by
  unfold ExtractMetOffice at h ⊢
  rw [← hDict]
  cases hT : metOfficeTry s₁.Dict with
  | none => rw [hT] at h; simp at h
  | some pair => rw [hT] at h; exact h
theorem extractDarkSky_overwrites (env : Env) (cfg : Config)
    (s₁ s₂ t : ForecastState) (hDict : s₁.Dict = s₂.Dict)
    (h : ExtractDarkSky env cfg s₁ = .ok (t, [])) :
    ExtractDarkSky env cfg s₂ = .ok (t, []) := by
  unfold ExtractDarkSky at h ⊢
  rw [← hDict]
  cases hT : darkSkyTry s₁.Dict with
  | none => rw [hT] at h; simp at h
  | some data => rw [hT] at h; exact h
theorem extractOpenWeather_overwrites (env : Env) (cfg : Config)
    (s₁ s₂ t : ForecastState) (hDict : s₁.Dict = s₂.Dict)
    (h : ExtractOpenWeather env cfg s₁ = .ok (t, [])) :
    ExtractOpenWeather env cfg s₂ = .ok (t, []) := by
  unfold ExtractOpenWeather at h ⊢
  rw [← hDict]
  cases hT : openWeatherTry s₁.Dict with
  | none => rw [hT] at h; simp at h
  | some data => rw [hT] at h; exact h
theorem download_requests_GB (env : Env) (cfg : Config) (s : ForecastState)
    (hc : cfg.country = "GB") : (Download env cfg s).requests = [.metOffice] := by
  unfold Download
  rw [hc]
  simp only [BEq.refl, if_true]
  split <;> rfl

theorem download_requests_darkSky (env : Env) (cfg : Config) (s : ForecastState)
    (hc : cfg.country ≠ "GB") (hd : cfg.darkSkyKey = true) :
    (Download env cfg s).requests = [.darkSky] := by
  unfold Download
  have hb : (cfg.country == "GB") = false := beq_eq_false_iff_ne.mpr hc
  rw [hb, hd]
  simp only [Bool.false_eq_true, if_false, if_true]
  split <;> rfl

theorem download_requests_openWeather (env : Env) (cfg : Config) (s : ForecastState)
    (hc : cfg.country ≠ "GB") (hd : cfg.darkSkyKey = false)
    (ho : cfg.openWeatherKey = true) :
    (Download env cfg s).requests = [.openWeather] := by
  unfold Download
  have hb : (cfg.country == "GB") = false := beq_eq_false_iff_ne.mpr hc
  rw [hb, hd, ho]
  simp only [Bool.false_eq_true, if_false, if_true]
  split <;> rfl

theorem download_noop (env : Env) (cfg : Config) (s : ForecastState)
    (hc : cfg.country ≠ "GB") (hd : cfg.darkSkyKey = false)
    (ho : cfg.openWeatherKey = false) :
    Download env cfg s = ⟨.ok s, [], []⟩ := by
  unfold Download
  have hb : (cfg.country == "GB") = false := beq_eq_false_iff_ne.mpr hc
  rw [hb, hd, ho]
  simp

theorem download_GB_goodfetch (env : Env) (cfg : Config) (s : ForecastState)
    (d : MetOfficePayload) (hc : cfg.country = "GB")
    (hf : env.fetchMetOffice = some d) :
    Download env cfg s =
      match ExtractMetOffice env cfg { s with Dict := some (.metOffice d) } with
      | .ok (t, r2) => ⟨.ok t, r2, [.metOffice]⟩
      | .error e => ⟨.error e, [], [.metOffice]⟩ := by
  unfold Download
  rw [hc, hf]
  simp only [BEq.refl, if_true]
  split <;> rfl

theorem download_GB_badfetch (env : Env) (cfg : Config) (s : ForecastState)
    (hc : cfg.country = "GB") (hf : env.fetchMetOffice = none) :
    Download env cfg s =
      match ExtractMetOffice env cfg
          { s with Dict := if s.Dict.isSome then s.Dict else some .empty } with
      | .ok (t, r2) => ⟨.ok t, 600 :: r2, [.metOffice]⟩
      | .error e => ⟨.error e, [600], [.metOffice]⟩ := by
  unfold Download
  rw [hc, hf]
  simp only [BEq.refl, if_true]
  split <;> rfl

theorem download_darkSky_goodfetch (env : Env) (cfg : Config) (s : ForecastState)
    (d : DarkSkyPayload) (hc : cfg.country ≠ "GB") (hd : cfg.darkSkyKey = true)
    (hf : env.fetchDarkSky = some d) :
    Download env cfg s =
      match ExtractDarkSky env cfg { s with Dict := some (.darkSky d) } with
      | .ok (t, r2) => ⟨.ok t, r2, [.darkSky]⟩
      | .error e => ⟨.error e, [], [.darkSky]⟩ := by
  unfold Download
  have hb : (cfg.country == "GB") = false := beq_eq_false_iff_ne.mpr hc
  rw [hb, hd, hf]
  simp only [Bool.false_eq_true, if_false, if_true]
  split <;> rfl

theorem download_darkSky_badfetch (env : Env) (cfg : Config) (s : ForecastState)
    (hc : cfg.country ≠ "GB") (hd : cfg.darkSkyKey = true)
    (hf : env.fetchDarkSky = none) :
    Download env cfg s =
      match ExtractDarkSky env cfg
          { s with Dict := if s.Dict.isSome then s.Dict else some .empty } with
      | .ok (t, r2) => ⟨.ok t, 600 :: r2, [.darkSky]⟩
      | .error e => ⟨.error e, [600], [.darkSky]⟩ := by
  unfold Download
  have hb : (cfg.country == "GB") = false := beq_eq_false_iff_ne.mpr hc
  rw [hb, hd, hf]
  simp only [Bool.false_eq_true, if_false, if_true]
  split <;> rfl

theorem download_openWeather_badfetch (env : Env) (cfg : Config) (s : ForecastState)
    (hc : cfg.country ≠ "GB") (hd : cfg.darkSkyKey = false)
    (ho : cfg.openWeatherKey = true) (hf : env.fetchOpenWeather = none) :
    Download env cfg s =
      match ExtractOpenWeather env cfg
          { s with Dict := if s.Dict.isSome then s.Dict else some .empty } with
      | .ok (t, r2) => ⟨.ok t, 600 :: r2, [.openWeather]⟩
      | .error e => ⟨.error e, [600], [.openWeather]⟩ := by
  unfold Download
  have hb : (cfg.country == "GB") = false := beq_eq_false_iff_ne.mpr hc
  rw [hb, hd, ho, hf]
  simp only [Bool.false_eq_true, if_false, if_true]
  split <;> rfl

/-! ### Concrete fixtures used by witnesses and counterexamples -/

/-- A GB station configuration. -/
def cfg0 : Config := ⟨"GB", false, false, "c", "mps"⟩

/-- A non-GB station with a DarkSky key. -/
def cfgDS : Config := ⟨"US", true, false, "c", "mps"⟩

/-- A non-GB station with only an OpenWeather key. -/
def cfgOW : Config := ⟨"US", false, true, "c", "mps"⟩

/-- A non-GB station with no commercial key at all. -/
def cfgNone : Config := ⟨"US", false, false, "c", "mps"⟩

/-- A concrete environment: local hour 14, epoch 2000, identity unit
conversion, no successful fetches. -/
def env0 : Env where
  now := 100
  nowDate := "2020-03-05Z"
  nowHour := 14
  nowEpoch := 2000
  fmtHM := fun t => toString t
  units := fun p _ => p
  cardinal := fun _ => "NWdir"
  fetchMetOffice := none
  fetchDarkSky := none
  fetchOpenWeather := none

/-- A MetOffice period for 2020-03-05 with starts 0,3,...,21 hours
(the `dollar` field is in minutes) and pairwise distinct weather codes. -/
def period0 : MetOfficePeriod :=
  ⟨"2020-03-05Z",
   [⟨0, 1, 5, "N", "10", "0"⟩, ⟨180, 2, 5, "N", "11", "1"⟩,
    ⟨360, 3, 5, "N", "12", "2"⟩, ⟨540, 4, 5, "N", "13", "3"⟩,
    ⟨720, 5, 5, "N", "14", "4"⟩, ⟨900, 6, 5, "N", "15", "5"⟩,
    ⟨1080, 7, 5, "N", "16", "6"⟩, ⟨1260, 8, 5, "N", "17", "7"⟩]⟩

/-- A well-formed MetOffice payload containing `period0`. -/
def payload0 : MetOfficePayload := ⟨some ⟨"2020-03-05T10:00:00Z", [period0]⟩⟩

/-- A state whose cached `Dict` holds `payload0` and whose display fields
hold recognisable stale values. -/
def state0 : ForecastState :=
  ⟨some (.metOffice payload0), .str "t0", .str "i0", .str "v0", .str "T0",
   .str "wd0", .str "ws0", .str "W0", .str "P0", .str "S0"⟩

/-- A two-entry DarkSky payload (times 1000 and 3000). -/
def ds0 : DarkSkyPayload :=
  ⟨some [⟨1000, 21, 10, 45, 7/10, "rain"⟩, ⟨3000, 22, 11, 50, 1/5, "snow"⟩]⟩

/-- `state0` with the DarkSky payload cached instead. -/
def stateDS : ForecastState := { state0 with Dict := some (.darkSky ds0) }

/-- A two-entry OpenWeather payload (times 1000 and 3000). -/
def ow0 : OpenWeatherPayload :=
  ⟨some [⟨1000, 21, 10, 45, [⟨"10d"⟩]⟩, ⟨3000, 22, 11, 50, [⟨"13n"⟩]⟩]⟩

/-- `state0` with the OpenWeather payload cached instead. -/
def stateOW : ForecastState := { state0 with Dict := some (.openWeather ow0) }

/-- A single-entry DarkSky payload whose only time 1000 is before
`env0.nowEpoch = 2000`: the `Valid` lookup `Times[bisect(...)]` is out of
range. -/
def ds1 : DarkSkyPayload := ⟨some [⟨1000, 21, 10, 45, 7/10, "rain"⟩]⟩

/-- `state0` with the one-entry DarkSky payload cached. -/
def stateDS1 : ForecastState := { state0 with Dict := some (.darkSky ds1) }

/-- A MetOffice payload whose only period is dated 2020-03-04, so that the
`Dates.index` lookup for `env0.nowDate` raises `ValueError`. -/
def payloadOld : MetOfficePayload :=
  ⟨some ⟨"2020-03-04T10:00:00Z", [{ period0 with value := "2020-03-04Z" }]⟩⟩

/-- `state0` with the stale-dated MetOffice payload cached. -/
def stateMOv : ForecastState := { state0 with Dict := some (.metOffice payloadOld) }

/-- `state0` with no cached `Dict` key at all. -/
def sNoDict : ForecastState := { state0 with Dict := none }

/-- `state0` with a cached MetOffice payload that lacks the `SiteRep` key. -/
def stateBadMO : ForecastState := { state0 with Dict := some (.metOffice ⟨none⟩) }

/-! ### Claims -/

/-- C1: Download selects exactly one provider by fixed priority: country
`GB` takes the MetOffice path regardless of commercial-API key presence;
otherwise a configuration with the DarkSky key unset and the OpenWeather key
set takes the OpenWeather path, and a configuration with the DarkSky key set
takes the DarkSky path. -/
theorem C1_provider_priority (env : Env) (cfg : Config) (s : ForecastState) :
    (cfg.country = "GB" → (Download env cfg s).requests = [Provider.metOffice]) ∧
    (cfg.country ≠ "GB" → cfg.darkSkyKey = false → cfg.openWeatherKey = true →
      (Download env cfg s).requests = [Provider.openWeather]) ∧
    (cfg.country ≠ "GB" → cfg.darkSkyKey = true →
      (Download env cfg s).requests = [Provider.darkSky]) :=
  ⟨fun hc => download_requests_GB env cfg s hc,
   fun hc hd ho => download_requests_openWeather env cfg s hc hd ho,
   fun hc hd => download_requests_darkSky env cfg s hc hd⟩

/-- Witness for C1 at concrete configurations, with both commercial keys set
in the GB case. -/
theorem C1_provider_priority_witness :
    (Download env0 ⟨"GB", true, true, "c", "mps"⟩ state0).requests = [Provider.metOffice] ∧
    (Download env0 cfgOW state0).requests = [Provider.openWeather] ∧
    (Download env0 cfgDS state0).requests = [Provider.darkSky] :=
  ⟨(C1_provider_priority env0 ⟨"GB", true, true, "c", "mps"⟩ state0).1 rfl,
   (C1_provider_priority env0 cfgOW state0).2.1 (by decide) rfl rfl,
   (C1_provider_priority env0 cfgDS state0).2.2 (by decide) rfl⟩

/-- C10: with country distinct from `GB` and neither commercial key
configured, Download takes no provider branch: it returns the state
unchanged, issues no HTTP request and schedules no retry. -/
theorem C10_no_provider_noop (env : Env) (cfg : Config) (s : ForecastState)
    (hc : cfg.country ≠ "GB") (hd : cfg.darkSkyKey = false)
    (ho : cfg.openWeatherKey = false) :
    Download env cfg s = ⟨.ok s, [], []⟩ :=
  download_noop env cfg s hc hd ho

/-- Witness for C10 at a concrete keyless non-GB configuration. -/
theorem C10_no_provider_noop_witness :
    Download env0 cfgNone state0 = ⟨.ok state0, [], []⟩ :=
  C10_no_provider_noop env0 cfgNone state0 (by decide) rfl rfl

/-- C4: on a failed shape check, Download keeps a previously cached raw
payload (or installs an empty structure when none exists), schedules a
600-second retry, and still runs the provider extraction on that cached
payload, in each of the three provider branches. -/
theorem C4_shapecheck_fallthrough (env : Env) (cfg : Config) (s : ForecastState) :
    (cfg.country = "GB" → env.fetchMetOffice = none →
      Download env cfg s =
        match ExtractMetOffice env cfg
            { s with Dict := if s.Dict.isSome then s.Dict else some .empty } with
        | .ok (t, r2) => ⟨.ok t, 600 :: r2, [.metOffice]⟩
        | .error e => ⟨.error e, [600], [.metOffice]⟩) ∧
    (cfg.country ≠ "GB" → cfg.darkSkyKey = true → env.fetchDarkSky = none →
      Download env cfg s =
        match ExtractDarkSky env cfg
            { s with Dict := if s.Dict.isSome then s.Dict else some .empty } with
        | .ok (t, r2) => ⟨.ok t, 600 :: r2, [.darkSky]⟩
        | .error e => ⟨.error e, [600], [.darkSky]⟩) ∧
    (cfg.country ≠ "GB" → cfg.darkSkyKey = false → cfg.openWeatherKey = true →
      env.fetchOpenWeather = none →
      Download env cfg s =
        match ExtractOpenWeather env cfg
            { s with Dict := if s.Dict.isSome then s.Dict else some .empty } with
        | .ok (t, r2) => ⟨.ok t, 600 :: r2, [.openWeather]⟩
        | .error e => ⟨.error e, [600], [.openWeather]⟩) :=
  ⟨fun hc hf => download_GB_badfetch env cfg s hc hf,
   fun hc hd hf => download_darkSky_badfetch env cfg s hc hd hf,
   fun hc hd ho hf => download_openWeather_badfetch env cfg s hc hd ho hf⟩

/-- Witness for C4: a GB fetch cycle whose shape check fails while a stale
well-formed payload is cached. -/
theorem C4_shapecheck_fallthrough_witness :
    Download env0 cfg0 state0 =
      match ExtractMetOffice env0 cfg0
          { state0 with Dict := if state0.Dict.isSome then state0.Dict else some .empty } with
      | .ok (t, r2) => ⟨.ok t, 600 :: r2, [.metOffice]⟩
      | .error e => ⟨.error e, [600], [.metOffice]⟩ :=
  (C4_shapecheck_fallthrough env0 cfg0 state0).1 rfl rfl

/-- C3 counterexample: a GB fetch whose response misses the top-level key
while no data is cached schedules two 600-second retries (one in Download,
one in the extraction), not exactly one, and leaves `Issued` at its stale
value rather than a blank sentinel. -/
theorem C3_counterexample :
    (Download env0 cfg0 sNoDict).retries = [600, 600] ∧
    (Download env0 cfg0 sNoDict).retries.length ≠ 1 ∧
    (match (Download env0 cfg0 sNoDict).result with
      | .ok t => t.Issued
      | .error _ => .str "ERR") = .str "i0" ∧
    Value.str "i0" ≠ .str "--" := by
  refine ⟨rfl, by decide, rfl, by decide⟩

/-- C3 amended: given a payload missing the expected top-level key, the
extraction step sets Temp, WindDir, WindSpd, Precip and Valid to the blank
sentinel, Weather to ForecastUnavailable, records the current time, leaves
Issued and Source unchanged, and schedules one 600-second retry; a full
fetch cycle whose shape check fails with no cached data schedules two
retries in total. -/
theorem C3_missing_key_behavior (env : Env) (cfg : Config) (s : ForecastState) :
    (metOfficeTry s.Dict = none →
      ExtractMetOffice env cfg s = .ok (sentinelUpdate env.now s, [600])) ∧
    (cfg.country = "GB" → env.fetchMetOffice = none → s.Dict = none →
      Download env cfg s =
        ⟨.ok (sentinelUpdate env.now { s with Dict := some .empty }),
         [600, 600], [.metOffice]⟩) := by
  refine ⟨fun h => extractMetOffice_missing env cfg s h, fun hc hf hd => ?_⟩
  rw [download_GB_badfetch env cfg s hc hf, hd]
  simp only [Option.isSome_none, Bool.false_eq_true, if_false]
  rw [extractMetOffice_missing env cfg { s with Dict := some .empty } rfl]

/-- Witness for C3 amended at the concrete no-cache GB fixture. -/
theorem C3_missing_key_behavior_witness :
    ExtractMetOffice env0 cfg0 sNoDict = .ok (sentinelUpdate env0.now sNoDict, [600]) ∧
    Download env0 cfg0 sNoDict =
      ⟨.ok (sentinelUpdate env0.now { sNoDict with Dict := some .empty }),
       [600, 600], [.metOffice]⟩ :=
  ⟨(C3_missing_key_behavior env0 cfg0 sNoDict).1 rfl,
   (C3_missing_key_behavior env0 cfg0 sNoDict).2 rfl rfl rfl⟩

/-- The normalized record produced from `payload0` under `env0`/`cfg0`. -/
def mo0Result : ForecastState :=
  { state0 with
    Time := .time 100, Issued := .str "10:00", Valid := .str "15:00",
    Temp := .pair "5.0" "c", WindDir := .str "N", WindSpd := .pair "2" "mps",
    Weather := .str "4", Precip := .str "14", Source := .str "MetOffice" }

/-- The normalized record produced from `ds0` under `env0`/`cfgDS`. -/
def ds0Result : ForecastState :=
  { stateDS with
    Time := .time 100, Issued := .str "1000", Valid := .str "3000",
    Temp := .pair "21.0" "c", WindDir := .str "NWdir", WindSpd := .pair "4" "mps",
    Weather := .str "12", Precip := .str "70", Source := .str "DarkSky" }

/-- The normalized record produced from `ow0` under `env0`/`cfgOW`. -/
def ow0Result : ForecastState :=
  { stateOW with
    Time := .time 100, Issued := .str "1000", Valid := .str "3000",
    Temp := .pair "21.0" "c", WindDir := .str "NWdir", WindSpd := .pair "3" "mps",
    Weather := .str "14", Precip := .str "--", Source := .str "OpenWeather" }

/-- `state0` with several display fields scrambled (same cached `Dict`). -/
def state0b : ForecastState :=
  { state0 with Issued := .str "zz", Temp := .str "!!", Source := .str "qq" }

/-- `stateDS` with several display fields scrambled (same cached `Dict`). -/
def stateDSb : ForecastState :=
  { stateDS with Issued := .str "zz", Weather := .str "!!" }

/-- `stateOW` with several display fields scrambled (same cached `Dict`). -/
def stateOWb : ForecastState :=
  { stateOW with Valid := .str "zz", Precip := .str "!!" }

/-- C2 counterexample: a failed MetOffice extraction (payload lacking the
`SiteRep` key) leaves the stale `Issued` and `Source` values in place, so
the failure branch does not overwrite all listed display fields with the
sentinel set. -/
theorem C2_counterexample :
    (match ExtractMetOffice env0 cfg0 stateBadMO with
      | .ok (t, _) => (t.Issued, t.Source)
      | .error _ => (.str "ERR", .str "ERR")) = (Value.str "i0", Value.str "S0") ∧
    Value.str "i0" ≠ .str "--" ∧ Value.str "i0" ≠ .str "ForecastUnavailable" ∧
    Value.str "S0" ≠ .str "--" ∧ Value.str "S0" ≠ .str "ForecastUnavailable" :=
  ⟨rfl, by decide, by decide, by decide, by decide⟩

/-- C2 amended: on every provider, a successful extraction overwrites all
nine display fields with values depending only on the configuration, the
clock environment and the cached payload (the result is independent of the
previous display-field values, i.e. the overwrite is total and atomic from
the caller's perspective); a failed extraction overwrites Temp, WindDir,
WindSpd, Precip and Valid with the blank sentinel, Weather with
`ForecastUnavailable`, sets Time to the current time, and leaves `Issued`
and `Source` unchanged. -/
theorem C2_overwrite_behavior :
    (∀ (env : Env) (cfg : Config) (s₁ s₂ t : ForecastState), s₁.Dict = s₂.Dict →
      ExtractMetOffice env cfg s₁ = .ok (t, []) →
      ExtractMetOffice env cfg s₂ = .ok (t, [])) ∧
    (∀ (env : Env) (cfg : Config) (s₁ s₂ t : ForecastState), s₁.Dict = s₂.Dict →
      ExtractDarkSky env cfg s₁ = .ok (t, []) →
      ExtractDarkSky env cfg s₂ = .ok (t, [])) ∧
    (∀ (env : Env) (cfg : Config) (s₁ s₂ t : ForecastState), s₁.Dict = s₂.Dict →
      ExtractOpenWeather env cfg s₁ = .ok (t, []) →
      ExtractOpenWeather env cfg s₂ = .ok (t, [])) ∧
    (∀ (env : Env) (cfg : Config) (s : ForecastState), metOfficeTry s.Dict = none →
      ExtractMetOffice env cfg s = .ok (sentinelUpdate env.now s, [600])) ∧
    (∀ (env : Env) (cfg : Config) (s : ForecastState), darkSkyTry s.Dict = none →
      ExtractDarkSky env cfg s = .ok (sentinelUpdate env.now s, [600])) ∧
    (∀ (env : Env) (cfg : Config) (s : ForecastState), openWeatherTry s.Dict = none →
      ExtractOpenWeather env cfg s = .ok (sentinelUpdate env.now s, [600])) :=
  ⟨extractMetOffice_overwrites, extractDarkSky_overwrites, extractOpenWeather_overwrites,
   extractMetOffice_missing, extractDarkSky_missing, extractOpenWeather_missing⟩

/-- Witness for C2 amended: concrete success runs on scrambled states land
on the same fully-overwritten records, and concrete failure runs produce the
sentinel update. -/
theorem C2_overwrite_behavior_witness :
    ExtractMetOffice env0 cfg0 state0b = .ok (mo0Result, []) ∧
    ExtractDarkSky env0 cfgDS stateDSb = .ok (ds0Result, []) ∧
    ExtractOpenWeather env0 cfgOW stateOWb = .ok (ow0Result, []) ∧
    ExtractMetOffice env0 cfg0 stateBadMO = .ok (sentinelUpdate env0.now stateBadMO, [600]) ∧
    ExtractDarkSky env0 cfgDS sNoDict = .ok (sentinelUpdate env0.now sNoDict, [600]) ∧
    ExtractOpenWeather env0 cfgOW sNoDict = .ok (sentinelUpdate env0.now sNoDict, [600]) :=
  ⟨C2_overwrite_behavior.1 env0 cfg0 state0 state0b mo0Result rfl (by decide),
   C2_overwrite_behavior.2.1 env0 cfgDS stateDS stateDSb ds0Result rfl (by decide),
   C2_overwrite_behavior.2.2.1 env0 cfgOW stateOW stateOWb ow0Result rfl (by decide),
   C2_overwrite_behavior.2.2.2.1 env0 cfg0 stateBadMO rfl,
   C2_overwrite_behavior.2.2.2.2.1 env0 cfgDS sNoDict rfl,
   C2_overwrite_behavior.2.2.2.2.2 env0 cfgOW sNoDict rfl⟩

/-- An environment whose DarkSky fetch succeeds with the one-entry payload
`ds1`. -/
def envDS1 : Env := { env0 with fetchDarkSky := some ds1 }

/-- C5: the code can raise. A DarkSky payload whose entries all lie before
the current time makes `Times[bisect(Times, now)]` (the `Valid` lookup)
raise an uncaught `IndexError`, which propagates out of Download; a
MetOffice payload whose period list lacks the current date makes
`Dates.index(...)` raise an uncaught `ValueError`. Only `KeyError` is
caught by the extraction branches. -/
theorem C5_uncaught_exception :
    ExtractDarkSky env0 cfgDS stateDS1 = .error .indexError ∧
    (Download envDS1 cfgDS state0).result = .error .indexError ∧
    ExtractMetOffice env0 cfg0 stateMOv = .error .valueError :=
  ⟨rfl, rfl, rfl⟩

/-- C6: for every well-formed MetOffice payload with an ordered period-start
sequence, extraction selects the latest period whose start is at most the
current local hour (rightmost insertion point of the binary search minus
one) and renders Valid as the selected start plus 3 hours, zero-padded, with
24 wrapped to 0 (`metOfficeValidHour`); concretely, for starts 0,3,...,21
and local hour 14 the selected period is the one starting at 12 (weather
code "4" in `period0`) with Valid "15:00", and for local hour 23 Valid
renders as "00:00", not "24:00". -/
theorem C6_period_selection :
    (∀ (env : Env) (cfg : Config) (s : ForecastState) (dd : String)
        (periods : List MetOfficePeriod) (k : Nat) (period : MetOfficePeriod)
        (hT : metOfficeTry s.Dict = some (dd, periods))
        (hk : pyListIndex (periods.map (fun item => item.value)) env.nowDate = .ok k)
        (hkl : k < periods.length) (hperiod : periods.get ⟨k, hkl⟩ = period)
        (hsorted : (metOfficeTimes period).Pairwise (· ≤ ·))
        (hne : period.Rep ≠ [])
        (hfirst : (metOfficeTimes period).getD 0 0 ≤ env.nowHour),
      ∃ (hi : metOfficeIdx period env.nowHour < period.Rep.length) (t : ForecastState),
        ExtractMetOffice env cfg s = .ok (t, []) ∧
        t.Weather = .str ((period.Rep.get ⟨metOfficeIdx period env.nowHour, hi⟩).W) ∧
        t.Valid = .str (pad2 (metOfficeValidHour period env.nowHour) ++ ":00") ∧
        (metOfficeTimes period).getD (metOfficeIdx period env.nowHour) 0 ≤ env.nowHour ∧
        (∀ j, j < (metOfficeTimes period).length →
          (metOfficeTimes period).getD j 0 ≤ env.nowHour →
          j ≤ metOfficeIdx period env.nowHour)) ∧
    metOfficeIdx period0 14 = 4 ∧
    (metOfficeTimes period0).getD (metOfficeIdx period0 14) 0 = 12 ∧
    (match ExtractMetOffice env0 cfg0 state0 with
      | .ok (t, _) => (t.Weather, t.Valid)
      | .error _ => (.str "ERR", .str "ERR")) = (Value.str "4", Value.str "15:00") ∧
    (match ExtractMetOffice { env0 with nowHour := 23 } cfg0 state0 with
      | .ok (t, _) => t.Valid
      | .error _ => .str "ERR") = Value.str "00:00" := by
  refine ⟨?_, by decide, by decide, by decide, by decide⟩
  intro env cfg s dd periods k period hT hk hkl hperiod hsorted hne hfirst
  obtain ⟨hi, heq, hle, hmax⟩ :=
    extractMetOffice_ok env cfg s dd periods k period hT hk hkl hperiod hsorted hne hfirst
  exact ⟨hi, _, heq, rfl, rfl, hle, hmax⟩

/-- Witness for C6: the general selection statement instantiated at the
concrete payload `payload0` (periods 0,3,...,21, hour 14). -/
theorem C6_period_selection_witness :
    ∃ (hi : metOfficeIdx period0 env0.nowHour < period0.Rep.length) (t : ForecastState),
      ExtractMetOffice env0 cfg0 state0 = .ok (t, []) ∧
      t.Weather = .str ((period0.Rep.get ⟨metOfficeIdx period0 env0.nowHour, hi⟩).W) ∧
      t.Valid = .str (pad2 (metOfficeValidHour period0 env0.nowHour) ++ ":00") ∧
      (metOfficeTimes period0).getD (metOfficeIdx period0 env0.nowHour) 0 ≤ env0.nowHour ∧
      (∀ j, j < (metOfficeTimes period0).length →
        (metOfficeTimes period0).getD j 0 ≤ env0.nowHour →
        j ≤ metOfficeIdx period0 env0.nowHour) :=
  C6_period_selection.1 env0 cfg0 state0 "2020-03-05T10:00:00Z" [period0] 0 period0
    rfl rfl (by decide) rfl (by decide) (by decide) (by decide)

/-- C7: the DarkSky if-chain and the OpenWeather ICONMAP realise exactly the
documented fixed tables, every code absent from a table maps to
`ForecastUnavailable`, and the MetOffice numeric weather code is passed into
the Weather field unchanged. -/
theorem C7_icon_mapping :
    (darkSkyIcon "clear-day" = "1" ∧ darkSkyIcon "clear-night" = "0" ∧
     darkSkyIcon "rain" = "12" ∧ darkSkyIcon "snow" = "27" ∧
     darkSkyIcon "sleet" = "18" ∧ darkSkyIcon "wind" = "wind" ∧
     darkSkyIcon "fog" = "6" ∧ darkSkyIcon "cloudy" = "7" ∧
     darkSkyIcon "partly-cloudy-day" = "3" ∧ darkSkyIcon "partly-cloudy-night" = "2") ∧
    (∀ c : String, c ∉ ["clear-day", "clear-night", "rain", "snow", "sleet",
        "wind", "fog", "cloudy", "partly-cloudy-day", "partly-cloudy-night"] →
      darkSkyIcon c = "ForecastUnavailable") ∧
    (openWeatherIcon "01n" = "0" ∧ openWeatherIcon "01d" = "1" ∧
     openWeatherIcon "02n" = "2" ∧ openWeatherIcon "02d" = "3" ∧
     openWeatherIcon "50d" = "6" ∧ openWeatherIcon "50n" = "6" ∧
     openWeatherIcon "03d" = "7" ∧ openWeatherIcon "03n" = "7" ∧
     openWeatherIcon "04d" = "8" ∧ openWeatherIcon "04n" = "8" ∧
     openWeatherIcon "09n" = "9" ∧ openWeatherIcon "09d" = "10" ∧
     openWeatherIcon "10n" = "13" ∧ openWeatherIcon "10d" = "14" ∧
     openWeatherIcon "13n" = "22" ∧ openWeatherIcon "13d" = "23" ∧
     openWeatherIcon "11n" = "28" ∧ openWeatherIcon "11d" = "29") ∧
    (∀ c : String, c ∉ ICONMAP.map Prod.fst →
      openWeatherIcon c = "ForecastUnavailable") ∧
    (∀ (env : Env) (cfg : Config) (s : ForecastState) (dd : String)
        (periods : List MetOfficePeriod) (k : Nat) (period : MetOfficePeriod)
        (hT : metOfficeTry s.Dict = some (dd, periods))
        (hk : pyListIndex (periods.map (fun item => item.value)) env.nowDate = .ok k)
        (hkl : k < periods.length) (hperiod : periods.get ⟨k, hkl⟩ = period)
        (hsorted : (metOfficeTimes period).Pairwise (· ≤ ·))
        (hne : period.Rep ≠ [])
        (hfirst : (metOfficeTimes period).getD 0 0 ≤ env.nowHour),
      ∃ (hi : metOfficeIdx period env.nowHour < period.Rep.length) (t : ForecastState),
        ExtractMetOffice env cfg s = .ok (t, []) ∧
        t.Weather = .str ((period.Rep.get ⟨metOfficeIdx period env.nowHour, hi⟩).W)) := by
  refine ⟨by decide, ?_, by decide, ?_, ?_⟩
  · intro c hc
    simp only [List.mem_cons, List.not_mem_nil, or_false, not_or] at hc
    obtain ⟨h1, h2, h3, h4, h5, h6, h7, h8, h9, h10⟩ := hc
    simp [darkSkyIcon, h1, h2, h3, h4, h5, h6, h7, h8, h9, h10]
  · intro c hc
    simp only [ICONMAP, List.map_cons, List.map_nil, List.mem_cons,
      List.not_mem_nil, or_false, not_or] at hc
    obtain ⟨g1, g2, g3, g4, g5, g6, g7, g8, g9, g10, g11, g12, g13, g14, g15,
      g16, g17, g18⟩ := hc
    simp [openWeatherIcon, ICONMAP, List.lookup,
      beq_eq_false_iff_ne.mpr g1, beq_eq_false_iff_ne.mpr g2,
      beq_eq_false_iff_ne.mpr g3, beq_eq_false_iff_ne.mpr g4,
      beq_eq_false_iff_ne.mpr g5, beq_eq_false_iff_ne.mpr g6,
      beq_eq_false_iff_ne.mpr g7, beq_eq_false_iff_ne.mpr g8,
      beq_eq_false_iff_ne.mpr g9, beq_eq_false_iff_ne.mpr g10,
      beq_eq_false_iff_ne.mpr g11, beq_eq_false_iff_ne.mpr g12,
      beq_eq_false_iff_ne.mpr g13, beq_eq_false_iff_ne.mpr g14,
      beq_eq_false_iff_ne.mpr g15, beq_eq_false_iff_ne.mpr g16,
      beq_eq_false_iff_ne.mpr g17, beq_eq_false_iff_ne.mpr g18]
  · intro env cfg s dd periods k period hT hk hkl hperiod hsorted hne hfirst
    obtain ⟨hi, heq, _, _⟩ :=
      extractMetOffice_ok env cfg s dd periods k period hT hk hkl hperiod hsorted hne hfirst
    exact ⟨hi, _, heq, rfl⟩

/-- Witness for C7: unmapped codes at a concrete unknown string, and the
pass-through conjunct at the concrete payload. -/
theorem C7_icon_mapping_witness :
    darkSkyIcon "drizzle" = "ForecastUnavailable" ∧
    openWeatherIcon "99x" = "ForecastUnavailable" ∧
    ∃ (hi : metOfficeIdx period0 env0.nowHour < period0.Rep.length) (t : ForecastState),
      ExtractMetOffice env0 cfg0 state0 = .ok (t, []) ∧
      t.Weather = .str ((period0.Rep.get ⟨metOfficeIdx period0 env0.nowHour, hi⟩).W) :=
  ⟨C7_icon_mapping.2.1 "drizzle" (by decide),
   C7_icon_mapping.2.2.2.1 "99x" (by decide),
   C7_icon_mapping.2.2.2.2 env0 cfg0 state0 "2020-03-05T10:00:00Z" [period0] 0 period0
     rfl rfl (by decide) rfl (by decide) (by decide) (by decide)⟩

/-- C8 counterexample: the OpenWeather branch multiplies the raw wind speed
by 0.2778 rather than dividing by 2.2369362920544, so a raw input of 10
converts to 2.778, which is not within 1e-6 of 4.4704. -/
theorem C8_counterexample :
    openWeatherWindMps 10 = 2778 / 10 ^ 3 ∧
    ¬ |openWeatherWindMps 10 - 44704 / 10 ^ 4| < 1 / 10 ^ 6 := by
  constructor
  · norm_num [openWeatherWindMps]
  · rw [show openWeatherWindMps 10 = 10 * (2778 / 10 ^ 4) from rfl]
    rw [not_lt, le_abs]
    right
    norm_num

/-- C8 amended: the DarkSky branch (like the MetOffice branch) divides the
raw wind speed by 2.2369362920544, so a raw input of 10 converts to a value
within 1e-6 of 4.4704 m/s before the display-unit conversion; the
OpenWeather branch instead multiplies by 0.2778, converting a raw input of
10 to exactly 2.778 m/s. -/
theorem C8_wind_conversion :
    (∀ w : ℚ, darkSkyWindMps w = w / (22369362920544 / 10 ^ 13) ∧
      metOfficeWindMps w = w / (22369362920544 / 10 ^ 13) ∧
      openWeatherWindMps w = w * (2778 / 10 ^ 4)) ∧
    |darkSkyWindMps 10 - 44704 / 10 ^ 4| < 1 / 10 ^ 6 ∧
    openWeatherWindMps 10 = 2778 / 10 ^ 3 := by
  refine ⟨fun w => ⟨rfl, rfl, rfl⟩, ?_, by norm_num [openWeatherWindMps]⟩
  rw [show darkSkyWindMps 10 = 10 / (22369362920544 / 10 ^ 13) from rfl]
  rw [abs_sub_lt_iff]
  constructor <;> norm_num

/-- C9 counterexample: a successful OpenWeather extraction on a payload with
forecast data present sets Precip to the constant blank sentinel "--"
rather than populating a precipitation probability (the extraction line is
commented out in the source). -/
theorem C9_counterexample :
    (match ExtractOpenWeather env0 cfgOW stateOW with
      | .ok (t, r) => (t.Precip, t.Source, r)
      | .error _ => (.str "ERR", .str "ERR", [0])) =
      (Value.str "--", Value.str "OpenWeather", []) := by decide

/-- C9 amended: the MetOffice branch populates Precip with the selected
period's `Pp` value unchanged, the DarkSky branch with the selected period's
probability multiplied by 100 and formatted with 0 decimals, and the
OpenWeather branch always sets Precip to the constant "--". -/
theorem C9_precip_population :
    (∀ (env : Env) (cfg : Config) (s : ForecastState) (data : List DarkSkyEntry)
        (hT : darkSkyTry s.Dict = some data)
        (hsorted : (darkSkyTimes data).Pairwise (· ≤ ·))
        (hne : data ≠ [])
        (hfirst : (darkSkyTimes data).getD 0 0 ≤ env.nowEpoch)
        (hvb : bisect (darkSkyTimes data) env.nowEpoch < (darkSkyTimes data).length),
      ∃ (hi : darkSkyIdx data env.nowEpoch < data.length) (t : ForecastState),
        ExtractDarkSky env cfg s = .ok (t, []) ∧
        t.Precip = .str (fmt0
          ((data.get ⟨darkSkyIdx data env.nowEpoch, hi⟩).precipProbability * 100))) ∧
    (∀ (env : Env) (cfg : Config) (s : ForecastState) (dd : String)
        (periods : List MetOfficePeriod) (k : Nat) (period : MetOfficePeriod)
        (hT : metOfficeTry s.Dict = some (dd, periods))
        (hk : pyListIndex (periods.map (fun item => item.value)) env.nowDate = .ok k)
        (hkl : k < periods.length) (hperiod : periods.get ⟨k, hkl⟩ = period)
        (hsorted : (metOfficeTimes period).Pairwise (· ≤ ·))
        (hne : period.Rep ≠ [])
        (hfirst : (metOfficeTimes period).getD 0 0 ≤ env.nowHour),
      ∃ (hi : metOfficeIdx period env.nowHour < period.Rep.length) (t : ForecastState),
        ExtractMetOffice env cfg s = .ok (t, []) ∧
        t.Precip = .str ((period.Rep.get ⟨metOfficeIdx period env.nowHour, hi⟩).Pp)) ∧
    (∀ (env : Env) (cfg : Config) (s : ForecastState) (data : List OpenWeatherEntry)
        (hT : openWeatherTry s.Dict = some data)
        (hsorted : (openWeatherTimes data).Pairwise (· ≤ ·))
        (hne : data ≠ [])
        (hfirst : (openWeatherTimes data).getD 0 0 ≤ env.nowEpoch)
        (hvb : bisect (openWeatherTimes data) env.nowEpoch < (openWeatherTimes data).length)
        (hw : ∀ e ∈ data, e.weather ≠ []),
      ∃ t : ForecastState,
        ExtractOpenWeather env cfg s = .ok (t, []) ∧ t.Precip = .str "--") := by
  refine ⟨?_, ?_, ?_⟩
  · intro env cfg s data hT hsorted hne hfirst hvb
    obtain ⟨hi, heq, _, _⟩ := extractDarkSky_ok env cfg s data hT hsorted hne hfirst hvb
    exact ⟨hi, _, heq, rfl⟩
  · intro env cfg s dd periods k period hT hk hkl hperiod hsorted hne hfirst
    obtain ⟨hi, heq, _, _⟩ :=
      extractMetOffice_ok env cfg s dd periods k period hT hk hkl hperiod hsorted hne hfirst
    exact ⟨hi, _, heq, rfl⟩
  · intro env cfg s data hT hsorted hne hfirst hvb hw
    obtain ⟨hi, hwi, heq⟩ :=
      extractOpenWeather_ok env cfg s data hT hsorted hne hfirst hvb hw
    exact ⟨_, heq, rfl⟩

/-- Witness for C9 amended at the concrete DarkSky, MetOffice and
OpenWeather fixtures. -/
theorem C9_precip_population_witness :
    (∃ (hi : darkSkyIdx (ds0.hourly.getD []) env0.nowEpoch < (ds0.hourly.getD []).length)
        (t : ForecastState),
      ExtractDarkSky env0 cfgDS stateDS = .ok (t, []) ∧
      t.Precip = .str (fmt0
        (((ds0.hourly.getD []).get
          ⟨darkSkyIdx (ds0.hourly.getD []) env0.nowEpoch, hi⟩).precipProbability * 100))) ∧
    (∃ (hi : metOfficeIdx period0 env0.nowHour < period0.Rep.length) (t : ForecastState),
      ExtractMetOffice env0 cfg0 state0 = .ok (t, []) ∧
      t.Precip = .str ((period0.Rep.get ⟨metOfficeIdx period0 env0.nowHour, hi⟩).Pp)) ∧
    (∃ t : ForecastState,
      ExtractOpenWeather env0 cfgOW stateOW = .ok (t, []) ∧ t.Precip = .str "--") :=
  ⟨C9_precip_population.1 env0 cfgDS stateDS (ds0.hourly.getD []) rfl
     (by decide) (by decide) (by decide) (by decide),
   C9_precip_population.2.1 env0 cfg0 state0 "2020-03-05T10:00:00Z" [period0] 0 period0
     rfl rfl (by decide) rfl (by decide) (by decide) (by decide),
   C9_precip_population.2.2 env0 cfgOW stateOW (ow0.hourly.getD []) rfl
     (by decide) (by decide) (by decide) (by decide) (by decide)⟩

end Forecast
